import Mathlib

/-!
Verification development for the YouTube Auto Uploader repository.

The repository ships the Electron desktop shell (src/electron/main.js,
src/electron/preload.js) and the browser UI layer
(src/flask_app/static/js/app.js, src/flask_app/static/js/folder-browser.js,
src/unnamed/part_002).  Those files are embedded directly below.  The Python
upload engine (uploader.py, models.py, youtube_api.py, file_monitor.py) is
referenced by the build scripts and the readme but its source is not in the
tree, so the scheduler, credential pool, deletion manager and cancel
operation are modelled from the specification text, as marked on each such
definition.
-/

namespace YTU

/-- Task status values: src/flask_app/static/js/app.js (updateQueueUI)
switches on exactly the five strings pending, uploading, completed, error,
cancelled. -/
inductive Status where
  | pending
  | uploading
  | completed
  | error
  | cancelled
deriving DecidableEq, Repr

/- ---------------------------------------------------------------- -/
/- External UI layer: queue snapshot consumption (app.js, part_002) -/
/- ---------------------------------------------------------------- -/

/-- Field names of a queue-snapshot task object read by updateQueueUI in
src/flask_app/static/js/app.js (lines 306-410), in order of first access
(task.status, task.id, task.video_url, task.error, task.progress,
task.file_size, task.delete_success, task.filename). -/
def appJsTaskFields : List String :=
  ["status", "id", "video_url", "error", "progress", "file_size",
   "delete_success", "filename"]

/-- Field names of a queue-snapshot task object read by updateQueueUI in
src/unnamed/part_002 (lines 217-365), in order of first access; this
variant additionally reads task.start_time and task.end_time for the
timing line. -/
def part002TaskFields : List String :=
  ["status", "id", "video_url", "error", "progress", "file_size",
   "delete_success", "start_time", "end_time", "filename"]

/-- All task fields consumed by the external readers of the queue
snapshot. -/
def snapshotFieldsRead : List String :=
  appJsTaskFields ++ part002TaskFields

/-- The snapshot field list exactly as the specification words it
(section 6, listTasks), for comparison with the fields the source
actually consumes. -/
def specSnapshotFields : List String :=
  ["id", "filename", "file_size", "status", "progress", "start_time",
   "end_time", "error", "delete_succeeded", "video_url"]

/-- The snapshot field list with the deletion-outcome field named as the
source names it: delete_success. -/
def amendedSnapshotFields : List String :=
  ["id", "filename", "file_size", "status", "progress", "start_time",
   "end_time", "error", "delete_success", "video_url"]

/- ---------------------------------------------------------------- -/
/- External UI layer: settings writes (app.js, folder-browser.js)   -/
/- ---------------------------------------------------------------- -/

/-- Settings keys posted to /api/settings by saveSettings in
src/flask_app/static/js/app.js (lines 627-638); src/unnamed/part_002
(lines 628-639) posts the identical key set. -/
def saveSettingsKeys : List String :=
  ["title_template", "description", "tags", "privacy",
   "delete_after_upload", "check_existing_files", "max_retries",
   "upload_limit_duration", "delete_retry_count", "delete_retry_delay"]

/-- Settings keys posted to /api/settings by selectFolder in
src/flask_app/static/js/folder-browser.js (lines 454-479). -/
def selectFolderSettingsKeys : List String :=
  ["watch_folder"]

/-- The configuration key set exactly as the specification lists it
(section 6, configuration consumed). -/
def specConfigKeys : List String :=
  ["title_template", "description", "tags", "privacy",
   "delete_after_upload", "check_existing_files", "max_retries",
   "upload_limit_duration", "delete_retry_count", "delete_retry_delay"]

/- ---------------------------------------------------------------- -/
/- External UI layer: polling (app.js refreshQueue)                 -/
/- ---------------------------------------------------------------- -/

/-- One element of the queue snapshot served to the UI, with the fields
the consuming code reads (types per their use in the source: progress is
a percentage, start_time and end_time are epoch seconds when present). -/
structure TaskSnap where
  id : String
  filename : String
  file_size : Nat
  status : Status
  progress : Nat
  start_time : Option Nat
  end_time : Option Nat
  error : Option String
  delete_success : Bool
  video_url : Option String
deriving DecidableEq, Repr

/-- The /api/queue response consumed by refreshQueue in
src/flask_app/static/js/app.js (lines 236-285): success flag, the queue
snapshot, monitoring and (optional) authentication flags, and upload
limit data. -/
structure QueueResponse where
  success : Bool
  queue : List TaskSnap
  is_monitoring : Bool
  is_authenticated : Option Bool
  upload_limit_reached : Bool
  upload_limit_reset_time : Option Nat
deriving DecidableEq, Repr

/-- UI-side module state mutated by refreshQueue (uploadQueue,
isMonitoring, isAuthenticated, uploadLimitReached,
uploadLimitResetTime in app.js). -/
structure UIState where
  uploadQueue : List TaskSnap
  isMonitoring : Bool
  isAuthenticated : Bool
  uploadLimitReached : Bool
  uploadLimitResetTime : Option Nat
deriving DecidableEq, Repr

/-- The queue poll interval installed by app.js line 178:
setInterval(refreshQueue, 1000). -/
def refreshIntervalMs : Nat := 1000

/-- State update performed by one refreshQueue poll
(src/flask_app/static/js/app.js lines 236-285): on a successful response
the client copy of the queue is replaced wholesale by data.queue;
isAuthenticated changes only when the response carries the flag;
the reset time is overwritten only when present; a failed response
leaves the state unchanged. -/
def refreshQueueApply (st : UIState) (resp : QueueResponse) : UIState :=
  if resp.success then
    { uploadQueue := resp.queue
      isMonitoring := resp.is_monitoring
      isAuthenticated := resp.is_authenticated.getD st.isAuthenticated
      uploadLimitReached := resp.upload_limit_reached
      uploadLimitResetTime :=
        match resp.upload_limit_reset_time with
        | some n => some n
        | none => st.uploadLimitResetTime }
  else st

/- ---------------------------------------------------------------- -/
/- Desktop shell: backend port selection (src/electron/main.js)     -/
/- ---------------------------------------------------------------- -/

/-- The list of ports the shell refuses to serve on, transcribed from the
BLOCKED_PORTS constant in src/electron/main.js lines 92-94. -/
def BLOCKED_PORTS : List Nat :=
  [1, 7, 9, 11, 13, 15, 17, 19, 20, 21, 22, 23, 25, 37, 42, 43, 53, 77,
   79, 87, 95, 101, 102, 103, 104, 109, 110, 111, 113, 115, 117, 119,
   123, 135, 139, 143, 179, 389, 427, 465, 512, 513, 514, 515, 526, 530,
   531, 532, 540, 556, 563, 587, 601, 636, 993, 995, 2049, 3659, 4045,
   5060, 5061, 6000, 6566, 6665, 6666, 6667, 6668, 6669, 6697, 10080]

/-- The preferred port list tried first by startFlaskServer
(src/electron/main.js line 189). -/
def preferredPorts : List Nat := [5000, 5001, 8000, 8080, 8081]

/-- The preferred-port loop of startFlaskServer (main.js lines 193-222):
a port in the blocked list is skipped; otherwise the first port whose
availability probe succeeds is taken.  The availability probe (binding a
net server) is abstracted as the predicate avail. -/
def pickPreferredPort (avail : Nat → Bool) : List Nat → Option Nat
  | [] => none
  | p :: rest =>
    if p ∈ BLOCKED_PORTS then pickPreferredPort avail rest
    else if avail p then some p
    else pickPreferredPort avail rest

/-- The candidate range handed to portfinder (main.js lines 226-231):
ports 8000 through 9000 inclusive. -/
def portfinderRange : List Nat := List.range' 8000 1001

/-- The portfinder fallback of startFlaskServer (main.js lines 224-231):
portfinder.getPortPromise scans the range for the first port that is
available and passes the filter, and the filter rejects exactly the
blocked ports. -/
def portfinderGetPort (avail : Nat → Bool) : Option Nat :=
  portfinderRange.find? fun p => !(decide (p ∈ BLOCKED_PORTS)) && avail p

/-- The complete port-selection path of startFlaskServer (main.js lines
186-231): preferred ports first, then the filtered portfinder fallback;
none models the path on which portfinder rejects (no port assigned). -/
def startFlaskServerPort (avail : Nat → Bool) : Option Nat :=
  match pickPreferredPort avail preferredPorts with
  | some p => some p
  | none => portfinderGetPort avail

/- ---------------------------------------------------------------- -/
/- Desktop shell: waitForFlaskServer (src/electron/main.js 134-175) -/
/- ---------------------------------------------------------------- -/

/-- Outcome of one connection attempt inside waitForFlaskServer: the
inner promise resolves with a connection verdict, or the awaited body
throws and is swallowed by the try/catch. -/
inductive AttemptOutcome where
  | resolved (connected : Bool)
  | threw (msg : String)
deriving DecidableEq, Repr

/-- The attempt loop of waitForFlaskServer (main.js lines 138-172),
indexed from a given first attempt number with the number of remaining
attempts as fuel: a resolved-true attempt returns true at once; a
resolved-false or thrown attempt falls through to the next attempt; the
loop returns false when the attempts are exhausted.  The second
component counts the connection attempts actually made. -/
def waitLoop (outcome : Nat → AttemptOutcome) (attempt : Nat) : Nat → Bool × Nat
  | 0 => (false, 0)
  | fuel + 1 =>
    match outcome attempt with
    | .resolved true => (true, 1)
    | _ =>
      let r := waitLoop outcome (attempt + 1) fuel
      (r.1, r.2 + 1)

/-- waitForFlaskServer (main.js lines 134-175): attempts are numbered 1
through maxAttempts. -/
def waitForFlaskServer (outcome : Nat → AttemptOutcome) (maxAttempts : Nat) :
    Bool × Nat :=
  waitLoop outcome 1 maxAttempts

/- ---------------------------------------------------------------- -/
/- Desktop shell: window close / tray quit lifecycle                -/
/- ---------------------------------------------------------------- -/

/-- Shell state tracked in src/electron/main.js: the quitting flag
(line 88), whether the main window has actually been destroyed, whether
it is visible, and whether the Flask child process is running. -/
structure ShellState where
  quitting : Bool
  windowDestroyed : Bool
  windowVisible : Bool
  flaskRunning : Bool
deriving DecidableEq, Repr

/-- Lifecycle events of the shell: a close event on the main window, the
tray Quit menu item, the before-quit application event, and a tray click
that shows the window. -/
inductive ShellEvent where
  | closeRequested
  | trayQuit
  | beforeQuit
  | showWindow
deriving DecidableEq, Repr

/-- Event handlers from src/electron/main.js.  closeRequested: the close
handler (lines 429-435) prevents the close and hides the window while
quitting is false, and lets the window be destroyed otherwise.
trayQuit: the tray Quit item (lines 486-491) sets quitting and calls
app.quit, whose before-quit event follows as its own trace event.
beforeQuit: the before-quit handler (lines 588-592) sets quitting and
stops the Flask server.  showWindow: the tray click shows the window
when it still exists. -/
def shellStep (s : ShellState) : ShellEvent → ShellState
  | .closeRequested =>
    if s.quitting then { s with windowVisible := false, windowDestroyed := true }
    else { s with windowVisible := false }
  | .trayQuit => { s with quitting := true }
  | .beforeQuit => { s with quitting := true, flaskRunning := false }
  | .showWindow => if s.windowDestroyed then s else { s with windowVisible := true }

/-- Runs a sequence of shell events from a state. -/
def shellRun (s : ShellState) : List ShellEvent → ShellState
  | [] => s
  | e :: es => shellRun (shellStep s e) es

/-- The shell state right after startup (main.js: quitting starts false,
the window is created visible, the Flask server has been started). -/
def shellInit : ShellState :=
  { quitting := false, windowDestroyed := false,
    windowVisible := true, flaskRunning := true }

/- ---------------------------------------------------------------- -/
/- Upload engine core, modelled from the spec (source not in tree)  -/
/- ---------------------------------------------------------------- -/

/-- Modelled from the spec: TaskRecord (section 3) — the unit of work;
the defining module (models.py) is not under src/.  Fields kept are the
ones the modelled operations touch: identity, status, retry count so
far, last error message, delete-attempted and delete-succeeded flags,
resulting video URL, and the cooperative cancellation token. -/
structure Task where
  id : Nat
  status : Status
  retryCount : Nat
  errorMsg : Option String
  deleteAttempted : Bool
  deleteSucceeded : Bool
  videoUrl : Option String
  cancelRequested : Bool
deriving DecidableEq, Repr

/-- Modelled from the spec: CredentialProject (section 3); the defining
module (youtube_api.py) is not under src/. -/
structure Project where
  id : Nat
  authenticated : Bool
  quotaExceeded : Bool
deriving DecidableEq, Repr

/-- Modelled from the spec: the CredentialPool state (sections 3 and
4.2): the projects in insertion order, the at-most-one active project,
and the pool-wide limit-reached flag. -/
structure Pool where
  projects : List Project
  activeId : Option Nat
  limitReached : Bool
deriving DecidableEq, Repr

/-- Modelled from the spec (4.2): flag one project quota-exceeded. -/
def flagQuota (ps : List Project) (pid : Nat) : List Project :=
  ps.map fun p => if p.id = pid then { p with quotaExceeded := true } else p

/-- Modelled from the spec (4.2): rotation deterministically selects the
next authenticated, non-quota-exceeded project in insertion order. -/
def nextActiveProject (ps : List Project) : Option Project :=
  ps.find? fun p => p.authenticated && !p.quotaExceeded

/-- Modelled from the spec (4.2): markQuotaExceeded flags the project
and, when it is the active one, rotates to the next authenticated
non-exceeded project; when none remains it sets the pool-wide
limit-reached state and leaves no project active. -/
def markQuotaExceeded (pool : Pool) (pid : Nat) : Pool :=
  let ps := flagQuota pool.projects pid
  if pool.activeId = some pid then
    match nextActiveProject ps with
    | some q => { projects := ps, activeId := some q.id, limitReached := false }
    | none => { projects := ps, activeId := none, limitReached := true }
  else { pool with projects := ps }

/-- Modelled from the spec: the scheduler state (4.5): the ordered
pending queue (head is next to run), the finalized tasks in completion
order, the credential pool, and the paused flag raised when no project
remains. -/
structure Sched where
  queue : List Task
  finished : List Task
  pool : Pool
  paused : Bool
deriving DecidableEq, Repr

/-- Modelled from the spec: the classified outcome of one upload attempt
(4.3): the classification is produced by the UploadAdapter. -/
inductive UploadResult where
  | success (url : String)
  | quotaExceeded
  | authExpired (msg : String)
  | transientNetwork (msg : String)
  | fileUnavailable (msg : String)
  | fatalRemote (msg : String)
deriving DecidableEq, Repr

/-- Modelled from the spec (4.5): retried-failure policy — increment the
retry count; while it was below max_retries return the task to pending
at the queue tail, else finalize it as error with the last message. -/
def retryOrFail (maxRetries : Nat) (st : Sched) (t : Task) (msg : String) : Sched :=
  let t1 := { t with retryCount := t.retryCount + 1, errorMsg := some msg }
  if t1.retryCount ≤ maxRetries then
    { st with queue := st.queue ++ [{ t1 with status := .pending }] }
  else
    { st with finished := st.finished ++ [{ t1 with status := .error }] }

/-- Modelled from the spec (4.5): the scheduler transition applied to
the task it just attempted, by classified result.  On success the task
is finalized completed.  On QuotaExceeded the pool marks the current
project exceeded; the task returns to pending at the head of the queue
with its retry count untouched, and the queue pauses exactly when
rotation found no project.  AuthExpired and FatalRemote finalize as
error with no retry.  TransientNetwork (and FileUnavailable, retried a
bounded number of times per section 7) follow the retry policy. -/
def onUploadResult (maxRetries : Nat) (st : Sched) (t : Task) :
    UploadResult → Sched
  | .success url =>
    { st with finished := st.finished ++
        [{ t with status := .completed, videoUrl := some url }] }
  | .quotaExceeded =>
    match st.pool.activeId with
    | none =>
      { st with queue := { t with status := .pending } :: st.queue, paused := true }
    | some pid =>
      let pool1 := markQuotaExceeded st.pool pid
      { st with pool := pool1
                queue := { t with status := .pending } :: st.queue
                paused := pool1.activeId.isNone }
  | .authExpired msg =>
    { st with finished := st.finished ++
        [{ t with status := .error, errorMsg := some msg }] }
  | .fatalRemote msg =>
    { st with finished := st.finished ++
        [{ t with status := .error, errorMsg := some msg }] }
  | .transientNetwork msg => retryOrFail maxRetries st t msg
  | .fileUnavailable msg => retryOrFail maxRetries st t msg

/-- Modelled from the spec (4.5 and 5): the serial worker loop, driven
by a script assigning each attempt number its classified outcome.  Each
iteration requires a non-paused scheduler, a head task and an active
project, marks the task uploading, invokes the adapter (the script) and
applies the transition.  Fuel bounds the modelled run; the second
component counts upload attempts made. -/
def workerRun (outcomes : Nat → UploadResult) (maxRetries : Nat) :
    Sched → Nat → Nat → Sched × Nat
  | st, _, 0 => (st, 0)
  | st, attempt, fuel + 1 =>
    if st.paused then (st, 0)
    else
      match st.queue, st.pool.activeId with
      | [], _ => (st, 0)
      | _, none => (st, 0)
      | t :: rest, some _ =>
        let st1 := onUploadResult maxRetries { st with queue := rest }
            { t with status := .uploading } (outcomes attempt)
        let r := workerRun outcomes maxRetries st1 (attempt + 1) fuel
        (r.1, r.2 + 1)

/-- Modelled from the spec: the DeletionManager attempt loop (4.4) —
up to the configured retry count attempts, true at the first success;
attemptOk gives the outcome of each OS remove call. -/
def deletionTry (attemptOk : Nat → Bool) (first : Nat) : Nat → Bool
  | 0 => false
  | n + 1 =>
    if attemptOk first then true else deletionTry attemptOk (first + 1) n

/-- Modelled from the spec: DeletionManager.delete (4.4): acts only on
tasks in status completed, never raises, records the outcome on the
delete flags and never changes the terminal status. -/
def runDeletion (attemptOk : Nat → Bool) (retryCount : Nat) (t : Task) : Task :=
  if t.status = .completed then
    { t with deleteAttempted := true,
             deleteSucceeded := deletionTry attemptOk 0 retryCount }
  else t

/-- Modelled from the spec (4.5): after a successful upload the
scheduler invokes the DeletionManager exactly when delete_after_upload
is configured. -/
def afterUpload (deleteAfterUpload : Bool) (attemptOk : Nat → Bool)
    (retryCount : Nat) (t : Task) : Task :=
  if deleteAfterUpload then runDeletion attemptOk retryCount t else t

/-- Modelled from the spec (section 6): result of cancelTask. -/
inductive CancelResult where
  | success
  | notFound
  | invalidState
deriving DecidableEq, Repr

/-- Modelled from the spec (4.5 and 6): cancel(taskId) over the
observable task list — valid only while the task is pending or
uploading; a pending task is removed from the queue immediately; an
uploading task is signaled via its cancellation token; cancelling a
task in any terminal state changes nothing and reports invalidState. -/
def cancelTask (ts : List Task) (tid : Nat) : List Task × CancelResult :=
  match ts.find? (fun t => t.id == tid) with
  | none => (ts, .notFound)
  | some t =>
    match t.status with
    | .pending => (ts.filter (fun u => u.id != tid), .success)
    | .uploading =>
      (ts.map (fun u => if u.id == tid then { u with cancelRequested := true } else u),
       .success)
    | _ => (ts, .invalidState)

/-- Modelled from the spec (4.3 and 4.5): the adapter observes the
cancellation token at a chunk boundary and the task is finalized
cancelled. -/
def observeCancel (t : Task) : Task :=
  if t.cancelRequested = true ∧ t.status = .uploading then
    { t with status := .cancelled }
  else t

/- ---------------------------------------------------------------- -/
/- Concrete fixtures used by witnesses and scenario runs            -/
/- ---------------------------------------------------------------- -/

/-- A freshly enqueued task. -/
def taskZero : Task :=
  { id := 1, status := .pending, retryCount := 0, errorMsg := none,
    deleteAttempted := false, deleteSucceeded := false,
    videoUrl := none, cancelRequested := false }

/-- An authenticated project with free quota. -/
def projA : Project := { id := 1, authenticated := true, quotaExceeded := false }

/-- A second authenticated project with free quota. -/
def projB : Project := { id := 2, authenticated := true, quotaExceeded := false }

/-- A pool holding only projA, active. -/
def poolOne : Pool :=
  { projects := [projA], activeId := some 1, limitReached := false }

/-- A pool holding projA (active) and projB. -/
def poolTwo : Pool :=
  { projects := [projA, projB], activeId := some 1, limitReached := false }

/-- A scheduler holding one fresh task over poolOne. -/
def schedOne : Sched :=
  { queue := [taskZero], finished := [], pool := poolOne, paused := false }

/-- A scheduler holding one fresh task over poolTwo. -/
def schedTwo : Sched :=
  { queue := [taskZero], finished := [], pool := poolTwo, paused := false }

/-- Outcome script: TransientNetwork on the first two attempts, then
success. -/
def scriptTransThenOk : Nat → UploadResult :=
  fun n => if n < 2 then .transientNetwork "net down" else .success "url"

/-- Outcome script: TransientNetwork on every attempt. -/
def scriptTransAlways : Nat → UploadResult :=
  fun _ => .transientNetwork "net down"

/-- The task of schedOne as finalized by scriptTransThenOk with
max_retries 3: completed after two retries. -/
def taskDone : Task :=
  { id := 1, status := .completed, retryCount := 2, errorMsg := some "net down",
    deleteAttempted := false, deleteSucceeded := false,
    videoUrl := some "url", cancelRequested := false }

/-- The task of schedOne as finalized by scriptTransAlways with
max_retries 1: error after the second attempt. -/
def taskFailed : Task :=
  { id := 1, status := .error, retryCount := 2, errorMsg := some "net down",
    deleteAttempted := false, deleteSucceeded := false,
    videoUrl := none, cancelRequested := false }

/-- Deletion script on which every OS remove call fails. -/
def alwaysFalse : Nat → Bool := fun _ => false

/-- Connection-attempt script: attempt 2 connects, the others throw. -/
def sampleOutcome : Nat → AttemptOutcome :=
  fun i => if i = 2 then .resolved true else .threw "connect refused"

/-- An empty UI state. -/
def uiStateZero : UIState :=
  { uploadQueue := [], isMonitoring := false, isAuthenticated := false,
    uploadLimitReached := false, uploadLimitResetTime := none }

/-- A successful empty /api/queue response. -/
def queueRespZero : QueueResponse :=
  { success := true, queue := [], is_monitoring := true,
    is_authenticated := none, upload_limit_reached := false,
    upload_limit_reset_time := none }

/- ---------------------------------------------------------------- -/
/- Helper lemmas                                                    -/
/- ---------------------------------------------------------------- -/

theorem pickPreferredPort_not_blocked (avail : Nat → Bool) :
    ∀ (ps : List Nat) (p : Nat),
      pickPreferredPort avail ps = some p → p ∉ BLOCKED_PORTS := by
  intro ps
  induction ps with
  | nil =>
    intro p h
    simp [pickPreferredPort] at h
  | cons q rest ih =>
    intro p h
    by_cases hq : q ∈ BLOCKED_PORTS
    · rw [pickPreferredPort, if_pos hq] at h
      exact ih p h
    · rw [pickPreferredPort, if_neg hq] at h
      by_cases ha : avail q = true
      · rw [if_pos ha] at h
        obtain rfl : q = p := by injection h
        exact hq
      · rw [if_neg ha] at h
        exact ih p h

theorem portfinderGetPort_not_blocked (avail : Nat → Bool) (p : Nat)
    (h : portfinderGetPort avail = some p) : p ∉ BLOCKED_PORTS := by
  have hp := List.find?_some h
  simp only [Bool.and_eq_true, Bool.not_eq_true', decide_eq_false_iff_not] at hp
  exact hp.1

theorem exists_shift (P : Nat → Prop) (start n : Nat) (h0 : ¬ P start) :
    (∃ i, start + 1 ≤ i ∧ i < start + 1 + n ∧ P i) ↔
    (∃ i, start ≤ i ∧ i < start + (n + 1) ∧ P i) := by
  constructor
  · rintro ⟨i, h1, h2, h3⟩
    exact ⟨i, by omega, by omega, h3⟩
  · rintro ⟨i, h1, h2, h3⟩
    rcases Nat.eq_or_lt_of_le h1 with rfl | hlt
    · exact absurd h3 h0
    · exact ⟨i, by omega, by omega, h3⟩

theorem waitLoop_spec (outcome : Nat → AttemptOutcome) :
    ∀ (fuel start : Nat),
      (waitLoop outcome start fuel).2 ≤ fuel ∧
      ((waitLoop outcome start fuel).1 = true ↔
        ∃ i, start ≤ i ∧ i < start + fuel ∧ outcome i = .resolved true) := by
  intro fuel
  induction fuel with
  | zero =>
    intro start
    refine ⟨Nat.le_refl 0, ?_⟩
    simp only [waitLoop]
    constructor
    · intro h; exact absurd h (by decide)
    · rintro ⟨i, h1, h2, _⟩; omega
  | succ n ih =>
    intro start
    cases ho : outcome start with
    | resolved b =>
      cases b
      · have hne : outcome start ≠ .resolved true := by simp [ho]
        refine ⟨?_, ?_⟩
        · simpa [waitLoop, ho] using Nat.succ_le_succ (ih (start + 1)).1
        · rw [show (waitLoop outcome start (n + 1)).1 =
              (waitLoop outcome (start + 1) n).1 by simp [waitLoop, ho]]
          rw [(ih (start + 1)).2]
          exact exists_shift (fun i => outcome i = .resolved true) start n hne
      · refine ⟨by simp [waitLoop, ho], ?_⟩
        constructor
        · intro _; exact ⟨start, Nat.le_refl start, by omega, ho⟩
        · intro _; simp [waitLoop, ho]
    | threw msg =>
      have hne : outcome start ≠ .resolved true := by simp [ho]
      refine ⟨?_, ?_⟩
      · simpa [waitLoop, ho] using Nat.succ_le_succ (ih (start + 1)).1
      · rw [show (waitLoop outcome start (n + 1)).1 =
            (waitLoop outcome (start + 1) n).1 by simp [waitLoop, ho]]
        rw [(ih (start + 1)).2]
        exact exists_shift (fun i => outcome i = .resolved true) start n hne

theorem shellRun_no_quit :
    ∀ (tr : List ShellEvent) (s : ShellState),
      s.quitting = false → s.windowDestroyed = false →
      ShellEvent.trayQuit ∉ tr → ShellEvent.beforeQuit ∉ tr →
      (shellRun s tr).quitting = false ∧ (shellRun s tr).windowDestroyed = false := by
  intro tr
  induction tr with
  | nil =>
    intro s h1 h2 _ _
    exact ⟨h1, h2⟩
  | cons e es ih =>
    intro s h1 h2 hm1 hm2
    have hes1 : ShellEvent.trayQuit ∉ es := fun h => hm1 (List.mem_cons_of_mem e h)
    have hes2 : ShellEvent.beforeQuit ∉ es := fun h => hm2 (List.mem_cons_of_mem e h)
    cases e with
    | closeRequested =>
      rw [shellRun, shellStep, if_neg (by simp [h1])]
      exact ih _ h1 h2 hes1 hes2
    | trayQuit => exact absurd (List.mem_cons_self _ _) hm1
    | beforeQuit => exact absurd (List.mem_cons_self _ _) hm2
    | showWindow =>
      rw [shellRun, shellStep, if_neg (by simp [h2])]
      exact ih _ h1 h2 hes1 hes2

theorem shellRun_flask :
    ∀ (tr : List ShellEvent) (s : ShellState),
      ShellEvent.beforeQuit ∉ tr →
      (shellRun s tr).flaskRunning = s.flaskRunning := by
  intro tr
  induction tr with
  | nil => intro s _; rfl
  | cons e es ih =>
    intro s hm
    have hes : ShellEvent.beforeQuit ∉ es := fun h => hm (List.mem_cons_of_mem e h)
    cases e with
    | closeRequested =>
      rw [shellRun, ih _ hes, shellStep]
      by_cases h : s.quitting = true
      · rw [if_pos h]
      · rw [if_neg h]
    | trayQuit => rw [shellRun, ih _ hes]; rfl
    | beforeQuit => exact absurd (List.mem_cons_self _ _) hm
    | showWindow =>
      rw [shellRun, ih _ hes, shellStep]
      by_cases h : s.windowDestroyed = true
      · rw [if_pos h]
      · rw [if_neg h]

theorem deletionTry_all_false (attemptOk : Nat → Bool) :
    ∀ (n first : Nat),
      (∀ i, i < n → attemptOk (first + i) = false) →
      deletionTry attemptOk first n = false := by
  intro n
  induction n with
  | zero => intro first _; rfl
  | succ m ih =>
    intro first h
    have h0 : attemptOk first = false := by
      have := h 0 (by omega)
      simpa using this
    rw [deletionTry, if_neg (by simp [h0])]
    refine ih (first + 1) ?_
    intro i hi
    have e : first + 1 + i = first + (i + 1) := by omega
    rw [e]
    exact h (i + 1) (by omega)

/- ---------------------------------------------------------------- -/
/- Claim theorems                                                   -/
/- ---------------------------------------------------------------- -/

/-- C3, counterexample: the deletion-outcome field named by the spec,
delete_succeeded, is not among the snapshot fields the external readers
(updateQueueUI in app.js and in part_002) consume; the field they read
is delete_success. -/
theorem C3_counterexample :
    "delete_succeeded" ∉ snapshotFieldsRead ∧
    "delete_success" ∈ snapshotFieldsRead ∧
    "delete_succeeded" ∈ specSnapshotFields := by
  decide

/-- C3, amended: the snapshot fields consumed by the external readers
are exactly id, filename, file_size, status, progress, start_time,
end_time, error, delete_success, video_url — the deletion-outcome field
exposed to external readers is named delete_success, not
delete_succeeded. -/
theorem C3_snapshot_fields :
    (∀ f ∈ snapshotFieldsRead, f ∈ amendedSnapshotFields) ∧
    (∀ f ∈ amendedSnapshotFields, f ∈ snapshotFieldsRead) ∧
    "delete_success" ∈ snapshotFieldsRead ∧
    "delete_succeeded" ∉ snapshotFieldsRead := by
  decide

/-- C3, witness: the status field is consumed, instantiating the
amended inclusion at a concrete field. -/
theorem C3_snapshot_fields_witness :
    "status" ∈ amendedSnapshotFields :=
  C3_snapshot_fields.1 "status" (by decide)

/-- C6, counterexample: not every settings write sent by a client draws
its keys from the spec key set — selectFolder in folder-browser.js posts
watch_folder, which is outside the set. -/
theorem C6_counterexample :
    ¬ (∀ k ∈ saveSettingsKeys ++ selectFolderSettingsKeys, k ∈ specConfigKeys) := by
  decide

/-- C6, amended: the settings form write (saveSettings) supplies exactly
the ten spec-listed keys, and every settings write sent by a client
supplies keys drawn from that set extended with watch_folder, which the
folder-selection write supplies. -/
theorem C6_settings_keys :
    (∀ k ∈ saveSettingsKeys, k ∈ specConfigKeys) ∧
    (∀ k ∈ specConfigKeys, k ∈ saveSettingsKeys) ∧
    (∀ k ∈ saveSettingsKeys ++ selectFolderSettingsKeys,
        k ∈ specConfigKeys ++ ["watch_folder"]) := by
  decide

/-- C6, witness: the tags key is within the spec key set, instantiating
the amended inclusion at a concrete key. -/
theorem C6_settings_keys_witness :
    "tags" ∈ specConfigKeys :=
  C6_settings_keys.1 "tags" (by decide)

/-- C7: the UI polls the queue snapshot on a fixed 1000 ms interval, and
each successful poll replaces the client copy of the task list wholesale
with the snapshot returned by the engine, whatever was displayed
before. -/
theorem C7_poll_replaces_queue :
    refreshIntervalMs = 1000 ∧
    ∀ (st : UIState) (resp : QueueResponse), resp.success = true →
      (refreshQueueApply st resp).uploadQueue = resp.queue := by
  refine ⟨rfl, ?_⟩
  intro st resp h
  simp [refreshQueueApply, h]

/-- C7, witness: a successful empty response leaves an empty client
queue. -/
theorem C7_poll_replaces_queue_witness :
    (refreshQueueApply uiStateZero queueRespZero).uploadQueue = queueRespZero.queue :=
  C7_poll_replaces_queue.2 uiStateZero queueRespZero rfl

/-- C8: every port the startFlaskServer selection logic can assign —
through the preferred-port loop, which skips blocked entries, or through
the portfinder fallback, whose filter rejects blocked ports — lies
outside BLOCKED_PORTS. -/
theorem C8_selected_port_not_blocked :
    ∀ (avail : Nat → Bool) (p : Nat),
      startFlaskServerPort avail = some p → p ∉ BLOCKED_PORTS := by
  intro avail p h
  unfold startFlaskServerPort at h
  cases hp : pickPreferredPort avail preferredPorts with
  | some q =>
    rw [hp] at h
    obtain rfl : q = p := by injection h
    exact pickPreferredPort_not_blocked avail preferredPorts q hp
  | none =>
    rw [hp] at h
    exact portfinderGetPort_not_blocked avail p h

/-- C8, witness: with every port available the selection takes 5000,
which is not blocked. -/
theorem C8_selected_port_not_blocked_witness :
    5000 ∉ BLOCKED_PORTS :=
  C8_selected_port_not_blocked (fun _ => true) 5000 (by decide)

/-- C9: for every attempt-outcome script and every maxAttempts at least
1, waitForFlaskServer makes at most maxAttempts connection attempts,
returns true exactly when some attempt in 1..maxAttempts resolves
connected (stopping at the first such attempt), and returns false when
every attempt fails or throws; in the embedding, thrown attempts are
ordinary outcomes swallowed by the loop, so the function is total and
never raises. -/
theorem C9_waitForFlaskServer_bounded :
    ∀ (outcome : Nat → AttemptOutcome) (maxAttempts : Nat),
      1 ≤ maxAttempts →
      (waitForFlaskServer outcome maxAttempts).2 ≤ maxAttempts ∧
      ((waitForFlaskServer outcome maxAttempts).1 = true ↔
        ∃ i, 1 ≤ i ∧ i ≤ maxAttempts ∧ outcome i = .resolved true) ∧
      ((∀ i, 1 ≤ i → i ≤ maxAttempts → outcome i ≠ .resolved true) →
        (waitForFlaskServer outcome maxAttempts).1 = false) := by
  intro outcome maxAttempts _h
  obtain ⟨h1, h2⟩ := waitLoop_spec outcome maxAttempts 1
  have hiff : (waitForFlaskServer outcome maxAttempts).1 = true ↔
      ∃ i, 1 ≤ i ∧ i ≤ maxAttempts ∧ outcome i = .resolved true := by
    rw [waitForFlaskServer, h2]
    constructor
    · rintro ⟨i, ha, hb, hc⟩
      exact ⟨i, ha, by omega, hc⟩
    · rintro ⟨i, ha, hb, hc⟩
      exact ⟨i, ha, by omega, hc⟩
  refine ⟨h1, hiff, ?_⟩
  intro hall
  cases hres : (waitForFlaskServer outcome maxAttempts).1 with
  | false => rfl
  | true =>
    obtain ⟨i, ha, hb, hc⟩ := hiff.1 hres
    exact absurd hc (hall i ha hb)

/-- C9, witness: with the script whose second attempt connects and three
allowed attempts, the loop makes at most three attempts and returns
true. -/
theorem C9_waitForFlaskServer_bounded_witness :
    (waitForFlaskServer sampleOutcome 3).2 ≤ 3 ∧
    ((waitForFlaskServer sampleOutcome 3).1 = true ↔
      ∃ i, 1 ≤ i ∧ i ≤ 3 ∧ sampleOutcome i = .resolved true) :=
  ⟨(C9_waitForFlaskServer_bounded sampleOutcome 3 (by decide)).1,
   (C9_waitForFlaskServer_bounded sampleOutcome 3 (by decide)).2.1⟩

/-- C10: while quitting is false a close event only hides the window —
it is not destroyed, the Flask process keeps running, and nothing else
in the state changes; and in every event trace from startup the window
is destroyed only if the tray Quit action or the before-quit handler
occurred, and the Flask process is stopped only if the before-quit
handler occurred. -/
theorem C10_close_hides_until_quit :
    (∀ s : ShellState, s.quitting = false →
        shellStep s .closeRequested = { s with windowVisible := false }) ∧
    (∀ tr : List ShellEvent,
        (shellRun shellInit tr).windowDestroyed = true →
        ShellEvent.trayQuit ∈ tr ∨ ShellEvent.beforeQuit ∈ tr) ∧
    (∀ tr : List ShellEvent,
        (shellRun shellInit tr).flaskRunning = false →
        ShellEvent.beforeQuit ∈ tr) := by
  refine ⟨?_, ?_, ?_⟩
  · intro s h
    rw [shellStep, if_neg (by simp [h])]
  · intro tr h
    by_cases h1 : ShellEvent.trayQuit ∈ tr
    · exact Or.inl h1
    · by_cases h2 : ShellEvent.beforeQuit ∈ tr
      · exact Or.inr h2
      · have hinv := shellRun_no_quit tr shellInit rfl rfl h1 h2
        rw [hinv.2] at h
        exact absurd h (by decide)
  · intro tr h
    by_cases h2 : ShellEvent.beforeQuit ∈ tr
    · exact h2
    · have hfl := shellRun_flask tr shellInit h2
      rw [hfl] at h
      exact absurd h (by decide)

/-- C10, witness: from startup a close event hides the window without
destroying it, and a trace that destroys the window contains a quit
event. -/
theorem C10_close_hides_until_quit_witness :
    shellStep shellInit .closeRequested = { shellInit with windowVisible := false } ∧
    (ShellEvent.trayQuit ∈ ([.trayQuit, .beforeQuit, .closeRequested] : List ShellEvent) ∨
     ShellEvent.beforeQuit ∈ ([.trayQuit, .beforeQuit, .closeRequested] : List ShellEvent)) :=
  ⟨C10_close_hides_until_quit.1 shellInit rfl,
   C10_close_hides_until_quit.2.1 [.trayQuit, .beforeQuit, .closeRequested] (by decide)⟩

/-- C1 (engine modelled from the spec): on QuotaExceeded with an active
project, when rotation finds an authenticated non-quota-exceeded
project the task returns to pending at the head of the queue with the
remaining pending tasks in unchanged relative order (the tail of the
new queue is the old queue), the retry count is untouched, and the
queue is not paused; when no such project remains the task is likewise
kept pending at the head, the pool records limit-reached, and the whole
queue pauses. -/
theorem C1_quota_rotation :
    ∀ (maxRetries : Nat) (st : Sched) (t : Task) (pid : Nat),
      st.pool.activeId = some pid →
      (∀ q : Project,
          nextActiveProject (flagQuota st.pool.projects pid) = some q →
          onUploadResult maxRetries st t .quotaExceeded =
            { st with
                pool := { projects := flagQuota st.pool.projects pid,
                          activeId := some q.id, limitReached := false },
                queue := { t with status := .pending } :: st.queue,
                paused := false }) ∧
      (nextActiveProject (flagQuota st.pool.projects pid) = none →
          onUploadResult maxRetries st t .quotaExceeded =
            { st with
                pool := { projects := flagQuota st.pool.projects pid,
                          activeId := none, limitReached := true },
                queue := { t with status := .pending } :: st.queue,
                paused := true }) ∧
      ({ t with status := Status.pending } : Task).retryCount = t.retryCount := by
  intro mr st t pid hactive
  refine ⟨?_, ?_, rfl⟩
  · intro q hq
    simp [onUploadResult, markQuotaExceeded, hactive, hq]
  · intro hq
    simp [onUploadResult, markQuotaExceeded, hactive, hq]

/-- C1, witness: the single-task scheduler over the two-project pool,
with project 1 active and project 2 authenticated with free quota,
rotates on QuotaExceeded and puts the task back at the head of the
queue pending, retry count untouched, unpaused. -/
theorem C1_quota_rotation_witness :
    onUploadResult 3 schedTwo taskZero .quotaExceeded =
      { schedTwo with
          pool := { projects := flagQuota schedTwo.pool.projects 1,
                    activeId := some projB.id, limitReached := false },
          queue := { taskZero with status := .pending } :: schedTwo.queue,
          paused := false } :=
  (C1_quota_rotation 3 schedTwo taskZero 1 rfl).1 projB (by decide)

/-- C2 (engine modelled from the spec): a TransientNetwork failure
increments the retry count; while the count was below max_retries the
task returns to pending at the queue tail, otherwise it is finalized as
error with the last message; consequently, with max_retries 3 and
transient failures on exactly the first two attempts the task completes
with retry count 2 after 3 total attempts, and with max_retries 1 and a
persistent transient failure the task ends in error after exactly 2
total attempts. -/
theorem C2_transient_retry :
    (∀ (maxRetries : Nat) (st : Sched) (t : Task) (msg : String),
        t.retryCount < maxRetries →
        onUploadResult maxRetries st t (.transientNetwork msg) =
          { st with queue := st.queue ++
              [{ t with
                  status := .pending,
                  retryCount := t.retryCount + 1,
                  errorMsg := some msg }] }) ∧
    (∀ (maxRetries : Nat) (st : Sched) (t : Task) (msg : String),
        maxRetries ≤ t.retryCount →
        onUploadResult maxRetries st t (.transientNetwork msg) =
          { st with finished := st.finished ++
              [{ t with
                  status := .error,
                  retryCount := t.retryCount + 1,
                  errorMsg := some msg }] }) ∧
    workerRun scriptTransThenOk 3 schedOne 0 10 =
      ({ queue := [], finished := [taskDone], pool := poolOne, paused := false }, 3) ∧
    workerRun scriptTransAlways 1 schedOne 0 10 =
      ({ queue := [], finished := [taskFailed], pool := poolOne, paused := false }, 2) ∧
    taskDone.status = .completed ∧ taskDone.retryCount = 2 ∧
    taskFailed.status = .error := by
  refine ⟨?_, ?_, by decide, by decide, rfl, rfl, rfl⟩
  · intro mr st t msg h
    have h1 : t.retryCount + 1 ≤ mr := h
    simp [onUploadResult, retryOrFail, h1]
  · intro mr st t msg h
    have h1 : ¬ (t.retryCount + 1 ≤ mr) := by omega
    simp [onUploadResult, retryOrFail, h1]

/-- C2, witness: the fresh task under max_retries 3 goes back to the
queue tail pending with retry count 1. -/
theorem C2_transient_retry_witness :
    onUploadResult 3 schedOne taskZero (.transientNetwork "net down") =
      { schedOne with queue := schedOne.queue ++
          [{ taskZero with
              status := .pending,
              retryCount := taskZero.retryCount + 1,
              errorMsg := some "net down" }] } :=
  C2_transient_retry.1 3 schedOne taskZero "net down" (by decide)

/-- C4 (engine modelled from the spec): after a completed upload with
delete_after_upload configured, a deletion failing every configured
attempt leaves the task status completed and records the failure only
on the deletion-outcome flag — identity, retry count, error message and
video URL are untouched and the task reaches no other terminal
state. -/
theorem C4_failed_deletion_keeps_completed :
    ∀ (attemptOk : Nat → Bool) (rc : Nat) (t : Task),
      t.status = .completed →
      (afterUpload true attemptOk rc t).status = .completed ∧
      ((∀ i, i < rc → attemptOk i = false) →
          (afterUpload true attemptOk rc t).deleteSucceeded = false) ∧
      (afterUpload true attemptOk rc t).id = t.id ∧
      (afterUpload true attemptOk rc t).retryCount = t.retryCount ∧
      (afterUpload true attemptOk rc t).errorMsg = t.errorMsg ∧
      (afterUpload true attemptOk rc t).videoUrl = t.videoUrl := by
  intro f rc t h
  refine ⟨?_, ?_, ?_, ?_, ?_, ?_⟩
  · simp [afterUpload, runDeletion, h]
  · intro hall
    have hz : ∀ i, i < rc → f (0 + i) = false := by
      intro i hi
      simpa using hall i hi
    simp [afterUpload, runDeletion, h, deletionTry_all_false f rc 0 hz]
  · simp [afterUpload, runDeletion, h]
  · simp [afterUpload, runDeletion, h]
  · simp [afterUpload, runDeletion, h]
  · simp [afterUpload, runDeletion, h]

/-- C4, witness: the completed task with an all-failing deletion script
and retry count 3 stays completed with delete-succeeded false. -/
theorem C4_failed_deletion_keeps_completed_witness :
    (afterUpload true alwaysFalse 3 taskDone).status = .completed ∧
    (afterUpload true alwaysFalse 3 taskDone).deleteSucceeded = false :=
  ⟨(C4_failed_deletion_keeps_completed alwaysFalse 3 taskDone rfl).1,
   (C4_failed_deletion_keeps_completed alwaysFalse 3 taskDone rfl).2.1
     (fun _ _ => rfl)⟩

/-- C5 (engine modelled from the spec): cancelTask succeeds only on a
pending or uploading task — a pending task is removed from the list
immediately; an uploading task is signaled through its cancellation
token, the call reports success, and once the adapter observes the
token the task is finalized cancelled; for a task already completed,
in error or cancelled the call changes nothing and reports
invalidState, which is a failure distinct from success. -/
theorem C5_cancel_valid_states :
    ∀ (ts : List Task) (tid : Nat) (t : Task),
      ts.find? (fun u => u.id == tid) = some t →
      (t.status = .pending →
          cancelTask ts tid = (ts.filter (fun u => u.id != tid), .success)) ∧
      (t.status = .uploading →
          cancelTask ts tid =
            (ts.map (fun u => if u.id == tid then { u with cancelRequested := true } else u),
             .success) ∧
          (observeCancel { t with cancelRequested := true }).status = .cancelled) ∧
      (t.status = .completed ∨ t.status = .error ∨ t.status = .cancelled →
          cancelTask ts tid = (ts, .invalidState) ∧
          CancelResult.invalidState ≠ CancelResult.success) := by
  intro ts tid t hfind
  refine ⟨?_, ?_, ?_⟩
  · intro h
    simp [cancelTask, hfind, h]
  · intro h
    exact ⟨by simp [cancelTask, hfind, h], by simp [observeCancel, h]⟩
  · intro h
    rcases h with h | h | h
    · exact ⟨by simp [cancelTask, hfind, h], by decide⟩
    · exact ⟨by simp [cancelTask, hfind, h], by decide⟩
    · exact ⟨by simp [cancelTask, hfind, h], by decide⟩

/-- C5, witness: cancelling the single pending task removes it from the
list and reports success. -/
theorem C5_cancel_valid_states_witness :
    cancelTask [taskZero] 1 = ([taskZero].filter (fun u => u.id != 1), .success) :=
  (C5_cancel_valid_states [taskZero] 1 taskZero (by decide)).1 rfl

end YTU
